import Mathlib

/-!
# Context-swap preparation (kernel/ke/armv7/ctxswapc.c) and script loading (apps/mbgen/script.c)

A shallow embedding of `KepArchPrepareForContextSwap` and of the
already-loaded path of `MbgenLoadScript`, followed by the properties
established about them.

Conventions.
* C pointers to thread records and FPU save areas are addresses (`Nat`);
  thread memory is a map from address to record, `NULL` is `none`.
* `ULONG` values are naturals, stores to a `ULONG` field truncate modulo `2^32`.
* Architecture primitives act on an explicit machine state and append the
  call to a trace, so that "is invoked" can be stated.
-/

set_option linter.unusedVariables false

namespace Ke

/-! ## Data model -/

/-- Address of a thread record (`PKTHREAD`). -/
abbrev PKTHREAD := Nat

/-- Address of an FPU save area (`PFPU_CONTEXT`). -/
abbrev PFPU_CONTEXT := Nat

/-- The fields of `KTHREAD` that `KepArchPrepareForContextSwap` reads or writes. -/
structure KTHREAD where
  /-- The 64-bit `ThreadPointer`. -/
  ThreadPointer : Nat
  /-- The `ULONG` bitfield `Flags`. -/
  Flags : Nat
  /-- The pointer `FpuContext`; `none` is `NULL`. -/
  FpuContext : Option PFPU_CONTEXT
deriving DecidableEq, Repr

/-- Modelled from the spec: the `PROCESSOR_BLOCK` type is declared in a header
that is not part of the sources; the spec gives it a `currentThread` field, the
thread presently running on the processor. The routine receives the block and
never reads it. -/
structure PROCESSOR_BLOCK where
  RunningThread : PKTHREAD
deriving DecidableEq, Repr

/-- The constants of the kernel headers the routine uses. Their values are not
part of the sources, so every definition takes them as a parameter. -/
structure KernelConstants where
  RunLevelDispatch : Nat
  THREAD_FLAG_USING_FPU : Nat
  THREAD_FLAG_FPU_OWNER : Nat
deriving DecidableEq, Repr

/-- A call of a side-effecting architecture primitive. -/
inductive ArchCall where
  | ArSaveFpuState (Buffer : PFPU_CONTEXT)
  | ArDisableFpu
deriving DecidableEq, Repr

/-- The machine state the routine runs on. -/
structure Machine where
  /-- What `KeGetRunLevel()` returns. -/
  RunLevel : Nat
  /-- What `ArAreInterruptsEnabled()` returns. -/
  InterruptsEnabled : Bool
  /-- The user read/write thread pointer register. -/
  ThreadPointerUser : Nat
  /-- Whether FPU instructions execute directly (`true`) or trap (`false`). -/
  FpuAccessEnabled : Bool
  /-- The live contents of the FPU register file. -/
  FpuRegisters : Nat
  /-- The contents of the FPU save areas, by address. -/
  FpuSaveArea : PFPU_CONTEXT → Nat
  /-- Thread records, by address. -/
  Threads : PKTHREAD → KTHREAD
  /-- The primitive calls made so far, oldest first. -/
  Trace : List ArchCall

/-- How a call ends: it returns, or the assertion stops the processor. -/
inductive Outcome where
  | returned
  | fatal
deriving DecidableEq, Repr

/-! ## External primitives -/

/-- Modelled from the spec: `KeGetRunLevel` is the run-level query primitive,
a pure state read. -/
def KeGetRunLevel (s : Machine) : Nat := s.RunLevel

/-- Modelled from the spec: `ArAreInterruptsEnabled` is the interrupt-enable query. -/
def ArAreInterruptsEnabled (s : Machine) : Bool := s.InterruptsEnabled

/-- Modelled from the spec: `ArGetThreadPointerUser` reads the architecture's
thread-pointer register, which is 32 bits wide on this architecture. -/
def ArGetThreadPointerUser (s : Machine) : Nat := s.ThreadPointerUser % 2 ^ 32

/-- Modelled from the spec: `ArSaveFpuState` copies the live hardware FPU
registers to the given buffer. -/
def ArSaveFpuState (Buffer : PFPU_CONTEXT) (s : Machine) : Machine :=
  { s with
    FpuSaveArea := Function.update s.FpuSaveArea Buffer s.FpuRegisters
    Trace := s.Trace ++ [ArchCall.ArSaveFpuState Buffer] }

/-- Modelled from the spec: `ArDisableFpu` marks the processor's FPU access as
trapping. -/
def ArDisableFpu (s : Machine) : Machine :=
  { s with FpuAccessEnabled := false, Trace := s.Trace ++ [ArchCall.ArDisableFpu] }

/-! ## Helpers for the C operations -/

/-- The C expression `~x` at type `ULONG`. -/
def ulongNot (x : Nat) : Nat := (2 ^ 32 - 1) ^^^ (x % 2 ^ 32)

/-- The store `*(((PULONG)&ThreadPointer) + 1) = Value`: the upper 32 bits of
the 64-bit field are replaced, the lower 32 bits keep their value. -/
def storeUpperUlong (ThreadPointer Value : Nat) : Nat :=
  (Value % 2 ^ 32) * 2 ^ 32 + ThreadPointer % 2 ^ 32

/-- Write a thread record back to thread memory. -/
def writeThread (s : Machine) (Thread : PKTHREAD) (t : KTHREAD) : Machine :=
  { s with Threads := Function.update s.Threads Thread t }

/-- The condition asserted at the head of the routine. -/
def runLevelAssertion (k : KernelConstants) (s : Machine) : Bool :=
  (KeGetRunLevel s == k.RunLevelDispatch) || (ArAreInterruptsEnabled s == false)

/-! ## The routine -/

/-- Modelled from the spec: the `ASSERT` macro is not part of the sources; by the spec a
violated precondition is fatal (kernel-panic class) and stops the processor. When the
condition is false the call ends fatally with the state as it is, otherwise the rest of
the routine runs. -/
def ASSERT (Condition : Bool) (s : Machine) (rest : Outcome × Machine) : Outcome × Machine :=
  if Condition = false then (Outcome.fatal, s) else rest

/-- The routine `KepArchPrepareForContextSwap (ProcessorBlock, CurrentThread, NewThread)`. -/
def KepArchPrepareForContextSwap (k : KernelConstants) (ProcessorBlock : PROCESSOR_BLOCK)
    (CurrentThread NewThread : PKTHREAD) (s : Machine) : Outcome × Machine :=
  ASSERT (runLevelAssertion k s) s <|
    -- Store the user read/write thread pointer in the upper 32-bits.
    let t0 := s.Threads CurrentThread
    let t1 := { t0 with ThreadPointer := storeUpperUlong t0.ThreadPointer (ArGetThreadPointerUser s) }
    let s1 := writeThread s CurrentThread t1
    if (t1.Flags &&& k.THREAD_FLAG_USING_FPU) != 0 then
      let s2 :=
        match t1.FpuContext with
        | some Buffer =>
          if (t1.Flags &&& k.THREAD_FLAG_FPU_OWNER) != 0 then ArSaveFpuState Buffer s1 else s1
        | none => s1
      let t2 := s2.Threads CurrentThread
      let t3 := { t2 with Flags := (t2.Flags &&& ulongNot k.THREAD_FLAG_FPU_OWNER) % 2 ^ 32 }
      let s3 := writeThread s2 CurrentThread t3
      (Outcome.returned, ArDisableFpu s3)
    else
      (Outcome.returned, s1)

/-! ## Observations used in the statements -/

/-- The spec's `usesExtendedState`: the flag `THREAD_FLAG_USING_FPU` is set. -/
def usesExtendedState (k : KernelConstants) (t : KTHREAD) : Bool :=
  (t.Flags &&& k.THREAD_FLAG_USING_FPU) != 0

/-- The spec's `isExtendedStateOwner`: the flag `THREAD_FLAG_FPU_OWNER` is set. -/
def isExtendedStateOwner (k : KernelConstants) (t : KTHREAD) : Bool :=
  (t.Flags &&& k.THREAD_FLAG_FPU_OWNER) != 0

/-- The buffers `ArSaveFpuState` was called on, in call order. -/
def saveCalls : List ArchCall → List PFPU_CONTEXT
  | [] => []
  | ArchCall.ArSaveFpuState b :: rest => b :: saveCalls rest
  | ArchCall.ArDisableFpu :: rest => saveCalls rest

/-- The number of `ArDisableFpu` calls. -/
def disableCalls : List ArchCall → Nat
  | [] => 0
  | ArchCall.ArSaveFpuState _ :: rest => disableCalls rest
  | ArchCall.ArDisableFpu :: rest => disableCalls rest + 1

/-! ## Concrete states used as examples -/

/-- Example constants: dispatch level 2, two distinct flag bits. -/
def exampleConstants : KernelConstants :=
  { RunLevelDispatch := 2, THREAD_FLAG_USING_FPU := 0x20, THREAD_FLAG_FPU_OWNER := 0x40 }

/-- An example machine with the given run level and interrupt setting whose thread at
address 1 has the given flags and FPU context, and whose other threads are blank. -/
def exampleMachine (RunLevel : Nat) (Interrupts : Bool) (Flags : Nat)
    (FpuContext : Option PFPU_CONTEXT) : Machine :=
  { RunLevel := RunLevel
    InterruptsEnabled := Interrupts
    ThreadPointerUser := 0xABCD0000
    FpuAccessEnabled := true
    FpuRegisters := 77
    FpuSaveArea := fun _ => 0
    Threads := fun p =>
      if p = 1 then { ThreadPointer := 0x1111111122222222, Flags := Flags, FpuContext := FpuContext }
      else { ThreadPointer := 0, Flags := 0, FpuContext := none }
    Trace := [] }


end Ke

namespace Mbgen

/-! ## Script loading: data model -/

/-- The values of `MBGEN_SCRIPT_ORDER` that the sources name. -/
inductive MBGEN_SCRIPT_ORDER where
  | MbgenScriptOrderCommandLine
  | MbgenScriptOrderProjectRoot
  | MbgenScriptOrderGlobal
  | MbgenScriptOrderTarget
deriving DecidableEq, Repr

/-- A directory tree identifier (`MBGEN_DIRECTORY_TREE`), by its enumeration value. -/
abbrev MBGEN_DIRECTORY_TREE := Nat

/-- The fields of `MBGEN_TARGET_SPECIFIER` that script lookup observes; a `NULL` path
is `none`. -/
structure MBGEN_TARGET_SPECIFIER where
  Root : MBGEN_DIRECTORY_TREE
  Path : Option String
deriving DecidableEq, Repr

/-- The fields of `MBGEN_SCRIPT` that script lookup and loading set. -/
structure MBGEN_SCRIPT where
  Root : MBGEN_DIRECTORY_TREE
  Path : Option String
  CompletePath : Option String
  Script : String
deriving DecidableEq, Repr

/-- The part of `MBGEN_CONTEXT` the lookup reads: the list of loaded scripts, head first. -/
structure MBGEN_CONTEXT where
  ScriptList : List MBGEN_SCRIPT
deriving DecidableEq, Repr

/-- The test `strcmp(ScriptPath, TargetPath) == 0` on two C strings. Comparing against a
`NULL` target path is undefined in C; here it is no match. -/
def strcmpIsZero : Option String → Option String → Bool
  | some a, some b => a == b
  | _, _ => false

/-- The loop of `MbgenFindScript` over the entries of the script list. -/
def findScriptIn : List MBGEN_SCRIPT → MBGEN_TARGET_SPECIFIER → Option MBGEN_SCRIPT
  | [], _ => none
  | Script :: rest, TargetPath =>
    if (Script.Root == TargetPath.Root) && (Script.Path != none) &&
        strcmpIsZero Script.Path TargetPath.Path then
      some Script
    else
      findScriptIn rest TargetPath

/-- The routine `MbgenFindScript (Context, TargetPath)`; `none` is `NULL`. -/
def MbgenFindScript (Context : MBGEN_CONTEXT) (TargetPath : MBGEN_TARGET_SPECIFIER) :
    Option MBGEN_SCRIPT :=
  findScriptIn Context.ScriptList TargetPath

/-- What the loading part of `MbgenLoadScript` (building the path, reading the file, running
the interpreter, inserting into or removing from the script list) leaves at the label
`LoadScriptEnd` after its cleanup: the status, the local `Script` pointer and the context. -/
structure LoadResult where
  Status : Int
  Script : Option MBGEN_SCRIPT
  Context : MBGEN_CONTEXT
deriving DecidableEq, Repr

/-- The tail of `MbgenLoadScript`: `if (FinalScript != NULL) *FinalScript = Script; return Status;`.
The argument `FinalScript` is `none` for a `NULL` pointer and otherwise holds the present
content of the caller's variable; the third component is that variable after the call. -/
def finishLoadScript (r : LoadResult) (FinalScript : Option (Option MBGEN_SCRIPT)) :
    Int × MBGEN_CONTEXT × Option (Option MBGEN_SCRIPT) :=
  match FinalScript with
  | some _ => (r.Status, r.Context, some r.Script)
  | none => (r.Status, r.Context, none)

/-- The routine `MbgenLoadScript (Context, Order, TargetPath, FinalScript)`. The file system
and the Chalk interpreter are outside the sources: the loading part (for the project
root order together with the assertion that precedes it) is the parameter `load`. The result is the returned status, the context and the caller's variable behind
`FinalScript` after the call. -/
def MbgenLoadScript (load : MBGEN_CONTEXT → MBGEN_SCRIPT_ORDER → MBGEN_TARGET_SPECIFIER → LoadResult)
    (Context : MBGEN_CONTEXT) (Order : MBGEN_SCRIPT_ORDER)
    (TargetPath : MBGEN_TARGET_SPECIFIER) (FinalScript : Option (Option MBGEN_SCRIPT)) :
    Int × MBGEN_CONTEXT × Option (Option MBGEN_SCRIPT) :=
  if Order = MBGEN_SCRIPT_ORDER.MbgenScriptOrderProjectRoot then
    finishLoadScript (load Context Order TargetPath) FinalScript
  else
    if MbgenFindScript Context TargetPath != none then
      -- return 0;
      (0, Context, FinalScript)
    else
      finishLoadScript (load Context Order TargetPath) FinalScript

/-! ## Concrete inputs used as examples -/

/-- An already loaded script for the path `lib` of tree 0. -/
def exampleScript : MBGEN_SCRIPT :=
  { Root := 0, Path := some "lib", CompletePath := some "/src/lib/build.ck", Script := "" }

/-- A context whose script list holds `exampleScript` only. -/
def exampleContext : MBGEN_CONTEXT := { ScriptList := [exampleScript] }

/-- A target specifier for the path `lib` of tree 0. -/
def exampleTarget : MBGEN_TARGET_SPECIFIER := { Root := 0, Path := some "lib" }

end Mbgen

namespace Ke

/-! ## Arithmetic of the flag and pointer updates -/

theorem clear_then_test (F M : Nat) : ((F &&& ulongNot M) % 2 ^ 32) &&& M = 0 := by
  apply Nat.eq_of_testBit_eq
  intro i
  simp only [ulongNot, Nat.testBit_and, Nat.testBit_xor, Nat.testBit_mod_two_pow,
    Nat.testBit_two_pow_sub_one, Nat.zero_testBit]
  by_cases h : i < 32 <;> simp [h]

theorem clear_twice (F M : Nat) :
    (((F &&& ulongNot M) % 2 ^ 32) &&& ulongNot M) % 2 ^ 32 = (F &&& ulongNot M) % 2 ^ 32 := by
  apply Nat.eq_of_testBit_eq
  intro i
  simp only [ulongNot, Nat.testBit_and, Nat.testBit_xor, Nat.testBit_mod_two_pow,
    Nat.testBit_two_pow_sub_one]
  by_cases h : i < 32 <;> simp [h]

theorem storeUpperUlong_low (tp v : Nat) : storeUpperUlong tp v % 2 ^ 32 = tp % 2 ^ 32 := by
  unfold storeUpperUlong
  omega

theorem storeUpperUlong_high (tp v : Nat) : storeUpperUlong tp v / 2 ^ 32 = v % 2 ^ 32 := by
  unfold storeUpperUlong
  omega

theorem storeUpperUlong_twice (tp v : Nat) :
    storeUpperUlong (storeUpperUlong tp v) v = storeUpperUlong tp v := by
  unfold storeUpperUlong
  omega

theorem saveCalls_append (xs ys : List ArchCall) :
    saveCalls (xs ++ ys) = saveCalls xs ++ saveCalls ys := by
  induction xs with
  | nil => rfl
  | cons x xs ih => cases x <;> simp [saveCalls, ih]

theorem disableCalls_append (xs ys : List ArchCall) :
    disableCalls (xs ++ ys) = disableCalls xs + disableCalls ys := by
  induction xs with
  | nil => simp [disableCalls]
  | cons x xs ih =>
    cases x
    · simp [disableCalls, ih]
    · simp [disableCalls, ih]; omega

/-! ## The branches of the routine -/

theorem prepare_fatal (k : KernelConstants) (pb : PROCESSOR_BLOCK) (cur new : PKTHREAD)
    (s : Machine) (hpre : runLevelAssertion k s = false) :
    KepArchPrepareForContextSwap k pb cur new s = (Outcome.fatal, s) := by
  simp [KepArchPrepareForContextSwap, ASSERT, hpre]

theorem prepare_not_using (k : KernelConstants) (pb : PROCESSOR_BLOCK) (cur new : PKTHREAD)
    (s : Machine) (hpre : runLevelAssertion k s = true)
    (huse : usesExtendedState k (s.Threads cur) = false) :
    KepArchPrepareForContextSwap k pb cur new s =
      (Outcome.returned,
        writeThread s cur { s.Threads cur with
          ThreadPointer :=
            storeUpperUlong (s.Threads cur).ThreadPointer (ArGetThreadPointerUser s) }) := by
  simp only [usesExtendedState] at huse
  simp [KepArchPrepareForContextSwap, ASSERT, hpre, huse]

theorem prepare_using (k : KernelConstants) (pb : PROCESSOR_BLOCK) (cur new : PKTHREAD)
    (s : Machine) (hpre : runLevelAssertion k s = true)
    (huse : usesExtendedState k (s.Threads cur) = true) :
    KepArchPrepareForContextSwap k pb cur new s =
      (Outcome.returned,
        { s with
          FpuAccessEnabled := false
          FpuSaveArea :=
            match (s.Threads cur).FpuContext with
            | some b =>
              if isExtendedStateOwner k (s.Threads cur) then
                Function.update s.FpuSaveArea b s.FpuRegisters
              else s.FpuSaveArea
            | none => s.FpuSaveArea
          Threads := Function.update s.Threads cur
            { ThreadPointer :=
                storeUpperUlong (s.Threads cur).ThreadPointer (ArGetThreadPointerUser s)
              Flags := ((s.Threads cur).Flags &&& ulongNot k.THREAD_FLAG_FPU_OWNER) % 2 ^ 32
              FpuContext := (s.Threads cur).FpuContext }
          Trace := s.Trace ++
            (match (s.Threads cur).FpuContext with
             | some b =>
               if isExtendedStateOwner k (s.Threads cur) then [ArchCall.ArSaveFpuState b] else []
             | none => []) ++ [ArchCall.ArDisableFpu] }) := by
  simp only [usesExtendedState] at huse
  simp only [KepArchPrepareForContextSwap, ASSERT, hpre, huse, isExtendedStateOwner]
  cases hb : (s.Threads cur).FpuContext with
  | none => simp [writeThread, ArDisableFpu]
  | some b =>
    by_cases ho : ((s.Threads cur).Flags &&& k.THREAD_FLAG_FPU_OWNER) = 0
    · simp [writeThread, ArDisableFpu, ho]
    · simp [writeThread, ArDisableFpu, ArSaveFpuState, ho]

/-! ## Release of FPU ownership -/

/-- C1 (as stated, refuted): a thread at dispatch level whose owner flag is set and whose
FPU context is present, but whose using-FPU flag is clear, gets no save and keeps the
owner flag. -/
theorem C1_counterexample :
    runLevelAssertion exampleConstants (exampleMachine 2 true 0x40 (some 9)) = true ∧
    isExtendedStateOwner exampleConstants ((exampleMachine 2 true 0x40 (some 9)).Threads 1) = true ∧
    ((exampleMachine 2 true 0x40 (some 9)).Threads 1).FpuContext = some 9 ∧
    ¬ (saveCalls (KepArchPrepareForContextSwap exampleConstants ⟨1⟩ 1 2
          (exampleMachine 2 true 0x40 (some 9))).2.Trace
        = saveCalls (exampleMachine 2 true 0x40 (some 9)).Trace ++ [9] ∧
       isExtendedStateOwner exampleConstants
          ((KepArchPrepareForContextSwap exampleConstants ⟨1⟩ 1 2
            (exampleMachine 2 true 0x40 (some 9))).2.Threads 1) = false) := by
  decide

/-- C1 (amended): for every outgoing thread whose using-FPU flag and owner flag are both set
and whose FPU context is present, a call that passes the run-level assertion returns,
calls the FPU save primitive exactly once, on that thread's buffer (which then holds the
live FPU registers), and the owner flag is clear afterwards. -/
theorem C1_save_once_and_release (k : KernelConstants) (pb : PROCESSOR_BLOCK)
    (cur new : PKTHREAD) (s : Machine) (b : PFPU_CONTEXT)
    (hpre : runLevelAssertion k s = true)
    (huse : usesExtendedState k (s.Threads cur) = true)
    (hown : isExtendedStateOwner k (s.Threads cur) = true)
    (hbuf : (s.Threads cur).FpuContext = some b) :
    (KepArchPrepareForContextSwap k pb cur new s).1 = Outcome.returned ∧
    saveCalls (KepArchPrepareForContextSwap k pb cur new s).2.Trace = saveCalls s.Trace ++ [b] ∧
    (KepArchPrepareForContextSwap k pb cur new s).2.FpuSaveArea b = s.FpuRegisters ∧
    isExtendedStateOwner k ((KepArchPrepareForContextSwap k pb cur new s).2.Threads cur) = false := by
  rw [prepare_using k pb cur new s hpre huse]
  refine ⟨rfl, ?_, ?_, ?_⟩
  · simp [hbuf, hown, saveCalls_append, saveCalls]
  · simp [hbuf, hown]
  · simpa [isExtendedStateOwner] using
      clear_then_test (s.Threads cur).Flags k.THREAD_FLAG_FPU_OWNER

/-- Witness of C1 (amended) on a thread with both flags set and a buffer at address 9. -/
theorem C1_save_once_and_release_witness :
    (KepArchPrepareForContextSwap exampleConstants ⟨1⟩ 1 2
        (exampleMachine 2 true 0x60 (some 9))).1 = Outcome.returned ∧
    saveCalls (KepArchPrepareForContextSwap exampleConstants ⟨1⟩ 1 2
        (exampleMachine 2 true 0x60 (some 9))).2.Trace
      = saveCalls (exampleMachine 2 true 0x60 (some 9)).Trace ++ [9] ∧
    (KepArchPrepareForContextSwap exampleConstants ⟨1⟩ 1 2
        (exampleMachine 2 true 0x60 (some 9))).2.FpuSaveArea 9
      = (exampleMachine 2 true 0x60 (some 9)).FpuRegisters ∧
    isExtendedStateOwner exampleConstants
        ((KepArchPrepareForContextSwap exampleConstants ⟨1⟩ 1 2
          (exampleMachine 2 true 0x60 (some 9))).2.Threads 1) = false :=
  C1_save_once_and_release exampleConstants ⟨1⟩ 1 2 (exampleMachine 2 true 0x60 (some 9)) 9
    (by decide) (by decide) (by decide) (by decide)

/-- C2: for every outgoing thread whose owner flag is clear at the call, the FPU save
primitive is not called during the call, whatever the using-FPU flag, the FPU context
and the run level are. -/
theorem C2_no_save_when_not_owner (k : KernelConstants) (pb : PROCESSOR_BLOCK)
    (cur new : PKTHREAD) (s : Machine)
    (hown : isExtendedStateOwner k (s.Threads cur) = false) :
    saveCalls (KepArchPrepareForContextSwap k pb cur new s).2.Trace = saveCalls s.Trace := by
  cases hpre : runLevelAssertion k s with
  | false => rw [prepare_fatal k pb cur new s hpre]
  | true =>
    cases huse : usesExtendedState k (s.Threads cur) with
    | false => rw [prepare_not_using k pb cur new s hpre huse]; rfl
    | true =>
      rw [prepare_using k pb cur new s hpre huse]
      cases hb : (s.Threads cur).FpuContext <;>
        simp [hown, saveCalls_append, saveCalls]

/-- Witness of C2 on a thread that uses the FPU, has a buffer and is not the owner. -/
theorem C2_no_save_when_not_owner_witness :
    saveCalls (KepArchPrepareForContextSwap exampleConstants ⟨1⟩ 1 2
        (exampleMachine 2 true 0x20 (some 9))).2.Trace
      = saveCalls (exampleMachine 2 true 0x20 (some 9)).Trace :=
  C2_no_save_when_not_owner exampleConstants ⟨1⟩ 1 2 (exampleMachine 2 true 0x20 (some 9))
    (by decide)

/-- C3: for every outgoing thread whose using-FPU flag is clear, the call makes no FPU save
and no FPU disable call, and leaves the thread's flags word, its FPU context pointer, the
contents of every FPU save area and the processor's FPU access setting as they were. -/
theorem C3_no_fpu_work_when_not_using (k : KernelConstants) (pb : PROCESSOR_BLOCK)
    (cur new : PKTHREAD) (s : Machine)
    (huse : usesExtendedState k (s.Threads cur) = false) :
    saveCalls (KepArchPrepareForContextSwap k pb cur new s).2.Trace = saveCalls s.Trace ∧
    disableCalls (KepArchPrepareForContextSwap k pb cur new s).2.Trace = disableCalls s.Trace ∧
    ((KepArchPrepareForContextSwap k pb cur new s).2.Threads cur).Flags = (s.Threads cur).Flags ∧
    ((KepArchPrepareForContextSwap k pb cur new s).2.Threads cur).FpuContext
      = (s.Threads cur).FpuContext ∧
    (KepArchPrepareForContextSwap k pb cur new s).2.FpuSaveArea = s.FpuSaveArea ∧
    (KepArchPrepareForContextSwap k pb cur new s).2.FpuAccessEnabled = s.FpuAccessEnabled := by
  cases hpre : runLevelAssertion k s with
  | false => rw [prepare_fatal k pb cur new s hpre]; simp
  | true => rw [prepare_not_using k pb cur new s hpre huse]; simp [writeThread]

/-- Witness of C3 on a thread with no flag set. -/
theorem C3_no_fpu_work_when_not_using_witness :
    saveCalls (KepArchPrepareForContextSwap exampleConstants ⟨1⟩ 1 2
        (exampleMachine 2 true 0 (some 9))).2.Trace
      = saveCalls (exampleMachine 2 true 0 (some 9)).Trace ∧
    disableCalls (KepArchPrepareForContextSwap exampleConstants ⟨1⟩ 1 2
        (exampleMachine 2 true 0 (some 9))).2.Trace
      = disableCalls (exampleMachine 2 true 0 (some 9)).Trace ∧
    ((KepArchPrepareForContextSwap exampleConstants ⟨1⟩ 1 2
        (exampleMachine 2 true 0 (some 9))).2.Threads 1).Flags
      = ((exampleMachine 2 true 0 (some 9)).Threads 1).Flags ∧
    ((KepArchPrepareForContextSwap exampleConstants ⟨1⟩ 1 2
        (exampleMachine 2 true 0 (some 9))).2.Threads 1).FpuContext
      = ((exampleMachine 2 true 0 (some 9)).Threads 1).FpuContext ∧
    (KepArchPrepareForContextSwap exampleConstants ⟨1⟩ 1 2
        (exampleMachine 2 true 0 (some 9))).2.FpuSaveArea
      = (exampleMachine 2 true 0 (some 9)).FpuSaveArea ∧
    (KepArchPrepareForContextSwap exampleConstants ⟨1⟩ 1 2
        (exampleMachine 2 true 0 (some 9))).2.FpuAccessEnabled
      = (exampleMachine 2 true 0 (some 9)).FpuAccessEnabled :=
  C3_no_fpu_work_when_not_using exampleConstants ⟨1⟩ 1 2 (exampleMachine 2 true 0 (some 9))
    (by decide)

/-- C4 (as stated, refuted): a thread at dispatch level whose using-FPU flag is clear is
switched away from without any FPU disable call, and FPU access stays enabled. -/
theorem C4_counterexample :
    runLevelAssertion exampleConstants (exampleMachine 2 true 0 none) = true ∧
    (KepArchPrepareForContextSwap exampleConstants ⟨1⟩ 1 2
        (exampleMachine 2 true 0 none)).1 = Outcome.returned ∧
    disableCalls (KepArchPrepareForContextSwap exampleConstants ⟨1⟩ 1 2
        (exampleMachine 2 true 0 none)).2.Trace
      = disableCalls (exampleMachine 2 true 0 none).Trace ∧
    (KepArchPrepareForContextSwap exampleConstants ⟨1⟩ 1 2
        (exampleMachine 2 true 0 none)).2.FpuAccessEnabled = true := by
  decide

/-- C4 (amended): for every outgoing thread whose using-FPU flag is set, whatever its FPU
context and owner flag are, a call that passes the run-level assertion returns, calls the
FPU disable primitive exactly once and leaves the processor's FPU access trapping. -/
theorem C4_disable_when_using (k : KernelConstants) (pb : PROCESSOR_BLOCK)
    (cur new : PKTHREAD) (s : Machine)
    (hpre : runLevelAssertion k s = true)
    (huse : usesExtendedState k (s.Threads cur) = true) :
    (KepArchPrepareForContextSwap k pb cur new s).1 = Outcome.returned ∧
    disableCalls (KepArchPrepareForContextSwap k pb cur new s).2.Trace
      = disableCalls s.Trace + 1 ∧
    (KepArchPrepareForContextSwap k pb cur new s).2.FpuAccessEnabled = false := by
  rw [prepare_using k pb cur new s hpre huse]
  refine ⟨rfl, ?_, rfl⟩
  cases hb : (s.Threads cur).FpuContext with
  | none => simp [disableCalls_append, disableCalls]
  | some b =>
    cases ho : isExtendedStateOwner k (s.Threads cur) <;>
      simp [disableCalls_append, disableCalls]

/-- Witness of C4 (amended) on a thread that uses the FPU, is not the owner and has no
buffer. -/
theorem C4_disable_when_using_witness :
    (KepArchPrepareForContextSwap exampleConstants ⟨1⟩ 1 2
        (exampleMachine 2 true 0x20 none)).1 = Outcome.returned ∧
    disableCalls (KepArchPrepareForContextSwap exampleConstants ⟨1⟩ 1 2
        (exampleMachine 2 true 0x20 none)).2.Trace
      = disableCalls (exampleMachine 2 true 0x20 none).Trace + 1 ∧
    (KepArchPrepareForContextSwap exampleConstants ⟨1⟩ 1 2
        (exampleMachine 2 true 0x20 none)).2.FpuAccessEnabled = false :=
  C4_disable_when_using exampleConstants ⟨1⟩ 1 2 (exampleMachine 2 true 0x20 none)
    (by decide) (by decide)

/-- C5 (as stated, refuted): a thread that uses the FPU, has no FPU context and has the
owner flag set loses the owner flag in the call although nothing was saved. -/
theorem C5_counterexample :
    runLevelAssertion exampleConstants (exampleMachine 2 true 0x60 none) = true ∧
    usesExtendedState exampleConstants ((exampleMachine 2 true 0x60 none).Threads 1) = true ∧
    ((exampleMachine 2 true 0x60 none).Threads 1).FpuContext = none ∧
    saveCalls (KepArchPrepareForContextSwap exampleConstants ⟨1⟩ 1 2
        (exampleMachine 2 true 0x60 none)).2.Trace = [] ∧
    isExtendedStateOwner exampleConstants
        ((KepArchPrepareForContextSwap exampleConstants ⟨1⟩ 1 2
          (exampleMachine 2 true 0x60 none)).2.Threads 1)
      ≠ isExtendedStateOwner exampleConstants ((exampleMachine 2 true 0x60 none).Threads 1) := by
  decide

/-- C5 (amended): for every outgoing thread whose using-FPU flag is set and whose FPU
context is absent, a call that passes the run-level assertion returns without failing,
makes no FPU save call, writes no FPU save area, leaves the FPU context absent, and the
owner flag is clear afterwards whatever it was before. -/
theorem C5_absent_buffer_no_save_owner_cleared (k : KernelConstants) (pb : PROCESSOR_BLOCK)
    (cur new : PKTHREAD) (s : Machine)
    (hpre : runLevelAssertion k s = true)
    (huse : usesExtendedState k (s.Threads cur) = true)
    (hbuf : (s.Threads cur).FpuContext = none) :
    (KepArchPrepareForContextSwap k pb cur new s).1 = Outcome.returned ∧
    saveCalls (KepArchPrepareForContextSwap k pb cur new s).2.Trace = saveCalls s.Trace ∧
    (KepArchPrepareForContextSwap k pb cur new s).2.FpuSaveArea = s.FpuSaveArea ∧
    ((KepArchPrepareForContextSwap k pb cur new s).2.Threads cur).FpuContext = none ∧
    isExtendedStateOwner k ((KepArchPrepareForContextSwap k pb cur new s).2.Threads cur) = false := by
  rw [prepare_using k pb cur new s hpre huse]
  refine ⟨rfl, ?_, ?_, ?_, ?_⟩
  · simp [hbuf, saveCalls_append, saveCalls]
  · simp [hbuf]
  · simp [hbuf]
  · simpa [isExtendedStateOwner] using
      clear_then_test (s.Threads cur).Flags k.THREAD_FLAG_FPU_OWNER

/-- Witness of C5 (amended) on a thread with both flags set and no buffer. -/
theorem C5_absent_buffer_no_save_owner_cleared_witness :
    (KepArchPrepareForContextSwap exampleConstants ⟨1⟩ 1 2
        (exampleMachine 2 true 0x60 none)).1 = Outcome.returned ∧
    saveCalls (KepArchPrepareForContextSwap exampleConstants ⟨1⟩ 1 2
        (exampleMachine 2 true 0x60 none)).2.Trace
      = saveCalls (exampleMachine 2 true 0x60 none).Trace ∧
    (KepArchPrepareForContextSwap exampleConstants ⟨1⟩ 1 2
        (exampleMachine 2 true 0x60 none)).2.FpuSaveArea
      = (exampleMachine 2 true 0x60 none).FpuSaveArea ∧
    ((KepArchPrepareForContextSwap exampleConstants ⟨1⟩ 1 2
        (exampleMachine 2 true 0x60 none)).2.Threads 1).FpuContext = none ∧
    isExtendedStateOwner exampleConstants
        ((KepArchPrepareForContextSwap exampleConstants ⟨1⟩ 1 2
          (exampleMachine 2 true 0x60 none)).2.Threads 1) = false :=
  C5_absent_buffer_no_save_owner_cleared exampleConstants ⟨1⟩ 1 2
    (exampleMachine 2 true 0x60 none) (by decide) (by decide) (by decide)

/-! ## Repeated release -/

theorem prepare_keeps_assertion (k : KernelConstants) (pb : PROCESSOR_BLOCK)
    (cur new : PKTHREAD) (s : Machine) :
    runLevelAssertion k (KepArchPrepareForContextSwap k pb cur new s).2
      = runLevelAssertion k s ∧
    ArGetThreadPointerUser (KepArchPrepareForContextSwap k pb cur new s).2
      = ArGetThreadPointerUser s := by
  cases hpre : runLevelAssertion k s with
  | false => rw [prepare_fatal k pb cur new s hpre]; exact ⟨hpre, rfl⟩
  | true =>
    cases huse : usesExtendedState k (s.Threads cur) with
    | false => rw [prepare_not_using k pb cur new s hpre huse]; exact ⟨hpre, rfl⟩
    | true => rw [prepare_using k pb cur new s hpre huse]; exact ⟨hpre, rfl⟩

theorem prepare_settles (k : KernelConstants) (pb : PROCESSOR_BLOCK)
    (cur new : PKTHREAD) (s : Machine) (hpre : runLevelAssertion k s = true) :
    storeUpperUlong ((KepArchPrepareForContextSwap k pb cur new s).2.Threads cur).ThreadPointer
        (ArGetThreadPointerUser s)
      = ((KepArchPrepareForContextSwap k pb cur new s).2.Threads cur).ThreadPointer ∧
    (usesExtendedState k (s.Threads cur) = true →
      (((KepArchPrepareForContextSwap k pb cur new s).2.Threads cur).Flags
          &&& ulongNot k.THREAD_FLAG_FPU_OWNER) % 2 ^ 32
        = ((KepArchPrepareForContextSwap k pb cur new s).2.Threads cur).Flags ∧
      isExtendedStateOwner k ((KepArchPrepareForContextSwap k pb cur new s).2.Threads cur)
        = false) ∧
    (usesExtendedState k (s.Threads cur) = false →
      ((KepArchPrepareForContextSwap k pb cur new s).2.Threads cur).Flags
        = (s.Threads cur).Flags) := by
  cases huse : usesExtendedState k (s.Threads cur) with
  | false =>
    rw [prepare_not_using k pb cur new s hpre huse]
    simp [writeThread, storeUpperUlong_twice]
  | true =>
    rw [prepare_using k pb cur new s hpre huse]
    refine ⟨?_, ?_, ?_⟩
    · simp [storeUpperUlong_twice]
    · intro _
      refine ⟨?_, ?_⟩
      · simpa using clear_twice (s.Threads cur).Flags k.THREAD_FLAG_FPU_OWNER
      · simpa [isExtendedStateOwner] using
          clear_then_test (s.Threads cur).Flags k.THREAD_FLAG_FPU_OWNER
    · intro h; cases h

theorem prepare_settled (k : KernelConstants) (pb : PROCESSOR_BLOCK)
    (cur new : PKTHREAD) (s : Machine)
    (htp : storeUpperUlong (s.Threads cur).ThreadPointer (ArGetThreadPointerUser s)
      = (s.Threads cur).ThreadPointer)
    (hfl : usesExtendedState k (s.Threads cur) = true →
      ((s.Threads cur).Flags &&& ulongNot k.THREAD_FLAG_FPU_OWNER) % 2 ^ 32
          = (s.Threads cur).Flags ∧
      isExtendedStateOwner k (s.Threads cur) = false) :
    (KepArchPrepareForContextSwap k pb cur new s).2.Threads = s.Threads ∧
    saveCalls (KepArchPrepareForContextSwap k pb cur new s).2.Trace = saveCalls s.Trace := by
  cases hpre : runLevelAssertion k s with
  | false => rw [prepare_fatal k pb cur new s hpre]; simp
  | true =>
    cases huse : usesExtendedState k (s.Threads cur) with
    | false =>
      rw [prepare_not_using k pb cur new s hpre huse]
      simp [writeThread, htp]
    | true =>
      obtain ⟨hclear, hown⟩ := hfl huse
      rw [prepare_using k pb cur new s hpre huse]
      refine ⟨?_, ?_⟩
      · simp only [htp, hclear]
        exact Function.update_eq_self cur s.Threads
      · simp only [hown]
        cases (s.Threads cur).FpuContext <;> simp [saveCalls_append, saveCalls]

theorem prepare_twice (k : KernelConstants) (pb : PROCESSOR_BLOCK) (cur new : PKTHREAD)
    (s : Machine) :
    (KepArchPrepareForContextSwap k pb cur new
        (KepArchPrepareForContextSwap k pb cur new s).2).2.Threads
      = (KepArchPrepareForContextSwap k pb cur new s).2.Threads ∧
    saveCalls (KepArchPrepareForContextSwap k pb cur new
        (KepArchPrepareForContextSwap k pb cur new s).2).2.Trace
      = saveCalls (KepArchPrepareForContextSwap k pb cur new s).2.Trace := by
  cases hpre : runLevelAssertion k s with
  | false =>
    have h1 := prepare_fatal k pb cur new s hpre
    rw [h1]
    simp only
    rw [h1]
    simp
  | true =>
    obtain ⟨h1, h2, h3⟩ := prepare_settles k pb cur new s hpre
    apply prepare_settled
    · rw [(prepare_keeps_assertion k pb cur new s).2]; exact h1
    · intro hu
      cases huse : usesExtendedState k (s.Threads cur) with
      | true => exact h2 huse
      | false =>
        refine ⟨?_, ?_⟩
        · exfalso
          have hf := h3 huse
          simp only [usesExtendedState, hf] at hu huse
          rw [huse] at hu
          cases hu
        · exfalso
          have hf := h3 huse
          simp only [usesExtendedState, hf] at hu huse
          rw [huse] at hu
          cases hu

theorem prepare_outcome (k : KernelConstants) (pb : PROCESSOR_BLOCK) (cur new : PKTHREAD)
    (s : Machine) :
    (KepArchPrepareForContextSwap k pb cur new s).1
      = if runLevelAssertion k s = true then Outcome.returned else Outcome.fatal := by
  cases hpre : runLevelAssertion k s with
  | false => rw [prepare_fatal k pb cur new s hpre]; rfl
  | true =>
    cases huse : usesExtendedState k (s.Threads cur) with
    | false => rw [prepare_not_using k pb cur new s hpre huse]; rfl
    | true => rw [prepare_using k pb cur new s hpre huse]; rfl

theorem prepare_saves_at_most_once (k : KernelConstants) (pb : PROCESSOR_BLOCK)
    (cur new : PKTHREAD) (s : Machine) :
    (saveCalls (KepArchPrepareForContextSwap k pb cur new s).2.Trace).length
      ≤ (saveCalls s.Trace).length + 1 := by
  cases hpre : runLevelAssertion k s with
  | false => rw [prepare_fatal k pb cur new s hpre]; simp
  | true =>
    cases huse : usesExtendedState k (s.Threads cur) with
    | false => rw [prepare_not_using k pb cur new s hpre huse]; simp [writeThread]
    | true =>
      rw [prepare_using k pb cur new s hpre huse]
      cases (s.Threads cur).FpuContext with
      | none => simp [saveCalls_append, saveCalls]
      | some b =>
        cases isExtendedStateOwner k (s.Threads cur) <;> simp [saveCalls_append, saveCalls]

/-- C6: calling the routine twice in succession on the same outgoing thread, the second
call on the machine as the first left it (so with the same thread-pointer register and no
FPU use in between), ends the second call the way the first ended, calls the FPU save
primitive at most once over the two calls (the first at most once, the second never), and
the second call leaves the thread record, and all of thread memory, as the first left it. -/
theorem C6_release_twice (k : KernelConstants) (pb : PROCESSOR_BLOCK) (cur new : PKTHREAD)
    (s : Machine) :
    (KepArchPrepareForContextSwap k pb cur new
        (KepArchPrepareForContextSwap k pb cur new s).2).1
      = (KepArchPrepareForContextSwap k pb cur new s).1 ∧
    (KepArchPrepareForContextSwap k pb cur new s).1
      = (if runLevelAssertion k s = true then Outcome.returned else Outcome.fatal) ∧
    (saveCalls (KepArchPrepareForContextSwap k pb cur new
        (KepArchPrepareForContextSwap k pb cur new s).2).2.Trace).length
      ≤ (saveCalls s.Trace).length + 1 ∧
    saveCalls (KepArchPrepareForContextSwap k pb cur new
        (KepArchPrepareForContextSwap k pb cur new s).2).2.Trace
      = saveCalls (KepArchPrepareForContextSwap k pb cur new s).2.Trace ∧
    (KepArchPrepareForContextSwap k pb cur new
        (KepArchPrepareForContextSwap k pb cur new s).2).2.Threads cur
      = (KepArchPrepareForContextSwap k pb cur new s).2.Threads cur ∧
    (KepArchPrepareForContextSwap k pb cur new
        (KepArchPrepareForContextSwap k pb cur new s).2).2.Threads
      = (KepArchPrepareForContextSwap k pb cur new s).2.Threads := by
  obtain ⟨hthreads, hsaves⟩ := prepare_twice k pb cur new s
  refine ⟨?_, prepare_outcome k pb cur new s, ?_, hsaves, ?_, hthreads⟩
  · rw [prepare_outcome, prepare_outcome, (prepare_keeps_assertion k pb cur new s).1]
  · rw [hsaves]
    exact prepare_saves_at_most_once k pb cur new s
  · rw [hthreads]

/-! ## The run-level assertion and the processor block -/

/-- C7: in every machine state whose run level is below dispatch and whose interrupts are
enabled, the call takes the fatal assertion path and leaves the whole machine state as it
was: no thread-pointer write, no FPU save, no flag change, no FPU disable. -/
theorem C7_fatal_below_dispatch (k : KernelConstants) (pb : PROCESSOR_BLOCK)
    (cur new : PKTHREAD) (s : Machine)
    (hlow : KeGetRunLevel s < k.RunLevelDispatch)
    (hint : ArAreInterruptsEnabled s = true) :
    KepArchPrepareForContextSwap k pb cur new s = (Outcome.fatal, s) := by
  apply prepare_fatal
  have hne : s.RunLevel ≠ k.RunLevelDispatch := by
    simp only [KeGetRunLevel] at hlow
    omega
  simp [runLevelAssertion, KeGetRunLevel, hint, hne]

/-- Witness of C7 at run level 0 with interrupts enabled, on a thread that owns the FPU. -/
theorem C7_fatal_below_dispatch_witness :
    KepArchPrepareForContextSwap exampleConstants ⟨1⟩ 1 2 (exampleMachine 0 true 0x60 (some 9))
      = (Outcome.fatal, exampleMachine 0 true 0x60 (some 9)) :=
  C7_fatal_below_dispatch exampleConstants ⟨1⟩ 1 2 (exampleMachine 0 true 0x60 (some 9))
    (by decide) (by decide)

/-- C8 (as stated, refuted): with a processor block whose running thread is at address 7,
a call for the outgoing thread at address 1 returns and has rewritten that thread's record. -/
theorem C8_counterexample :
    (⟨7⟩ : PROCESSOR_BLOCK).RunningThread ≠ 1 ∧
    (KepArchPrepareForContextSwap exampleConstants ⟨7⟩ 1 2
        (exampleMachine 2 true 0x60 (some 9))).1 = Outcome.returned ∧
    (KepArchPrepareForContextSwap exampleConstants ⟨7⟩ 1 2
        (exampleMachine 2 true 0x60 (some 9))).2.Threads 1
      ≠ (exampleMachine 2 true 0x60 (some 9)).Threads 1 := by
  decide

/-- C8 (amended): for every call in which the outgoing thread is not the processor block's
running thread, the call is not fatal on that account: it is fatal exactly when the
run-level assertion fails; when the assertion holds it returns and rewrites the outgoing
thread's record (upper half of the thread pointer stored, owner flag cleared when the
using-FPU flag is set, FPU context pointer kept), and the whole result equals that of the
call made with a processor block whose running thread is the outgoing thread. -/
theorem C8_processor_block_not_checked (k : KernelConstants) (pb : PROCESSOR_BLOCK)
    (cur new : PKTHREAD) (s : Machine)
    (hne : pb.RunningThread ≠ cur) :
    (KepArchPrepareForContextSwap k pb cur new s).1
      = (if runLevelAssertion k s = true then Outcome.returned else Outcome.fatal) ∧
    (KepArchPrepareForContextSwap k pb cur new s).2.Threads cur
      = (if runLevelAssertion k s = true then
          { ThreadPointer :=
              storeUpperUlong (s.Threads cur).ThreadPointer (ArGetThreadPointerUser s)
            Flags :=
              if usesExtendedState k (s.Threads cur) = true then
                ((s.Threads cur).Flags &&& ulongNot k.THREAD_FLAG_FPU_OWNER) % 2 ^ 32
              else (s.Threads cur).Flags
            FpuContext := (s.Threads cur).FpuContext }
        else s.Threads cur) ∧
    KepArchPrepareForContextSwap k pb cur new s
      = KepArchPrepareForContextSwap k ⟨cur⟩ cur new s := by
  refine ⟨prepare_outcome k pb cur new s, ?_, rfl⟩
  cases hpre : runLevelAssertion k s with
  | false => rw [prepare_fatal k pb cur new s hpre]; simp
  | true =>
    cases huse : usesExtendedState k (s.Threads cur) with
    | false => rw [prepare_not_using k pb cur new s hpre huse]; simp [writeThread]
    | true => rw [prepare_using k pb cur new s hpre huse]; simp

/-- Witness of C8 (amended) with the running thread at address 7 and the outgoing thread,
which owns the FPU, at address 1. -/
theorem C8_processor_block_not_checked_witness :
    (KepArchPrepareForContextSwap exampleConstants ⟨7⟩ 1 2
        (exampleMachine 2 true 0x60 (some 9))).1
      = (if runLevelAssertion exampleConstants (exampleMachine 2 true 0x60 (some 9)) = true
          then Outcome.returned else Outcome.fatal) ∧
    (KepArchPrepareForContextSwap exampleConstants ⟨7⟩ 1 2
        (exampleMachine 2 true 0x60 (some 9))).2.Threads 1
      = (if runLevelAssertion exampleConstants (exampleMachine 2 true 0x60 (some 9)) = true then
          { ThreadPointer :=
              storeUpperUlong ((exampleMachine 2 true 0x60 (some 9)).Threads 1).ThreadPointer
                (ArGetThreadPointerUser (exampleMachine 2 true 0x60 (some 9)))
            Flags :=
              if usesExtendedState exampleConstants
                  ((exampleMachine 2 true 0x60 (some 9)).Threads 1) = true then
                (((exampleMachine 2 true 0x60 (some 9)).Threads 1).Flags
                  &&& ulongNot exampleConstants.THREAD_FLAG_FPU_OWNER) % 2 ^ 32
              else ((exampleMachine 2 true 0x60 (some 9)).Threads 1).Flags
            FpuContext := ((exampleMachine 2 true 0x60 (some 9)).Threads 1).FpuContext }
        else (exampleMachine 2 true 0x60 (some 9)).Threads 1) ∧
    KepArchPrepareForContextSwap exampleConstants ⟨7⟩ 1 2 (exampleMachine 2 true 0x60 (some 9))
      = KepArchPrepareForContextSwap exampleConstants ⟨1⟩ 1 2
          (exampleMachine 2 true 0x60 (some 9)) :=
  C8_processor_block_not_checked exampleConstants ⟨7⟩ 1 2
    (exampleMachine 2 true 0x60 (some 9)) (by decide)

/-! ## The thread pointer -/

/-- C9: after every call that passes the run-level assertion, whatever the flags of the
outgoing thread are, the upper 32 bits of its 64-bit thread pointer equal the value read
from the user thread-pointer register and the lower 32 bits are unchanged. -/
theorem C9_thread_pointer_upper_half (k : KernelConstants) (pb : PROCESSOR_BLOCK)
    (cur new : PKTHREAD) (s : Machine)
    (hpre : runLevelAssertion k s = true) :
    ((KepArchPrepareForContextSwap k pb cur new s).2.Threads cur).ThreadPointer
      = ArGetThreadPointerUser s * 2 ^ 32 + (s.Threads cur).ThreadPointer % 2 ^ 32 ∧
    ((KepArchPrepareForContextSwap k pb cur new s).2.Threads cur).ThreadPointer / 2 ^ 32
      = ArGetThreadPointerUser s ∧
    ((KepArchPrepareForContextSwap k pb cur new s).2.Threads cur).ThreadPointer % 2 ^ 32
      = (s.Threads cur).ThreadPointer % 2 ^ 32 := by
  have hreg : ArGetThreadPointerUser s % 2 ^ 32 = ArGetThreadPointerUser s := by
    simp [ArGetThreadPointerUser]
  have htp : ((KepArchPrepareForContextSwap k pb cur new s).2.Threads cur).ThreadPointer
      = storeUpperUlong (s.Threads cur).ThreadPointer (ArGetThreadPointerUser s) := by
    cases huse : usesExtendedState k (s.Threads cur) with
    | false => rw [prepare_not_using k pb cur new s hpre huse]; simp [writeThread]
    | true => rw [prepare_using k pb cur new s hpre huse]; simp
  rw [htp]
  refine ⟨?_, ?_, storeUpperUlong_low _ _⟩
  · unfold storeUpperUlong; rw [hreg]
  · rw [storeUpperUlong_high, hreg]

/-- Witness of C9 on a thread that does not use the FPU, with register value 0xABCD0000. -/
theorem C9_thread_pointer_upper_half_witness :
    ((KepArchPrepareForContextSwap exampleConstants ⟨1⟩ 1 2
        (exampleMachine 2 true 0 none)).2.Threads 1).ThreadPointer
      = ArGetThreadPointerUser (exampleMachine 2 true 0 none) * 2 ^ 32
        + ((exampleMachine 2 true 0 none).Threads 1).ThreadPointer % 2 ^ 32 ∧
    ((KepArchPrepareForContextSwap exampleConstants ⟨1⟩ 1 2
        (exampleMachine 2 true 0 none)).2.Threads 1).ThreadPointer / 2 ^ 32
      = ArGetThreadPointerUser (exampleMachine 2 true 0 none) ∧
    ((KepArchPrepareForContextSwap exampleConstants ⟨1⟩ 1 2
        (exampleMachine 2 true 0 none)).2.Threads 1).ThreadPointer % 2 ^ 32
      = ((exampleMachine 2 true 0 none).Threads 1).ThreadPointer % 2 ^ 32 :=
  C9_thread_pointer_upper_half exampleConstants ⟨1⟩ 1 2 (exampleMachine 2 true 0 none)
    (by decide)

end Ke

namespace Mbgen

/-! ## Loading a script that is already loaded -/

theorem MbgenLoadScript_found
    (load : MBGEN_CONTEXT → MBGEN_SCRIPT_ORDER → MBGEN_TARGET_SPECIFIER → LoadResult)
    (Context : MBGEN_CONTEXT) (Order : MBGEN_SCRIPT_ORDER) (TargetPath : MBGEN_TARGET_SPECIFIER)
    (FinalScript : Option (Option MBGEN_SCRIPT)) (Found : MBGEN_SCRIPT)
    (horder : Order ≠ MBGEN_SCRIPT_ORDER.MbgenScriptOrderProjectRoot)
    (hfound : MbgenFindScript Context TargetPath = some Found) :
    MbgenLoadScript load Context Order TargetPath FinalScript = (0, Context, FinalScript) := by
  simp [MbgenLoadScript, horder, hfound]

/-- C10 (the code at the failing input): with the script for `lib` already in the script
list, a target-order call for `lib` whose `FinalScript` points at a variable holding `NULL`
finds the script, returns 0 and leaves the context as it was, and the variable still holds
`NULL` afterwards: the found script is not stored through `FinalScript`. -/
theorem C10_found_script_not_stored
    (load : MBGEN_CONTEXT → MBGEN_SCRIPT_ORDER → MBGEN_TARGET_SPECIFIER → LoadResult) :
    MbgenFindScript exampleContext exampleTarget = some exampleScript ∧
    MbgenLoadScript load exampleContext MBGEN_SCRIPT_ORDER.MbgenScriptOrderTarget exampleTarget
        (some none) = (0, exampleContext, some none) ∧
    (MbgenLoadScript load exampleContext MBGEN_SCRIPT_ORDER.MbgenScriptOrderTarget exampleTarget
        (some none)).2.2 ≠ some (some exampleScript) := by
  have hfind : MbgenFindScript exampleContext exampleTarget = some exampleScript := by decide
  have hcall := MbgenLoadScript_found load exampleContext
    MBGEN_SCRIPT_ORDER.MbgenScriptOrderTarget exampleTarget (some none) exampleScript
    (by decide) hfind
  refine ⟨hfind, hcall, ?_⟩
  rw [hcall]
  simp

end Mbgen
